import Mathlib

/-!
# Verification of the `ocelog` buffered structured logger core

A shallow embedding of `src/ocelog/src/ocelog/core.py` (class `Ocelogger`
with its `_FileWriter` / `_DBWriter` backends) and
`src/ocelog/src/ocelog/context.py` (ambient trace-id storage), together
with theorems settling the specification claims about record construction,
the buffer/flush protocol, the background-flusher lifecycle, writer retry
behaviour and terminal-error handling.

Modelling conventions:
* Python values passed as keyword extras are modelled by the inductive
  `PyVal`; keyword-argument dictionaries by association lists
  `List (String × PyVal)` (Python guarantees unique keys).
* Python exceptions are identified by a `Nat` tag; the stdlib call
  `traceback.format_exception` is modelled by the abstract but concrete
  formatting function `formatTrace` (its output content is irrelevant to
  every claim; only presence/absence matters).
* Thread handles and `threading.Event` objects are modelled by generation
  counters, so that "a brand-new event/thread was created" is observable
  as a strict increment.  A thread's `is_alive()` status is a `Bool` field.
* Writer calls, sleeps, stderr writes and raised exceptions are recorded
  in explicit result structures (a trace of the side effects), since the
  Python code performs them imperatively.
-/

namespace Ocelog

/-- A Python value usable as a keyword-argument extra in `Ocelogger._log`.
`vNone` models Python `None`; `vExc e` models an exception object with
identity tag `e`. -/
inductive PyVal where
  | vNone
  | vBool (b : Bool)
  | vInt (n : Int)
  | vStr (s : String)
  | vExc (e : Nat)
deriving DecidableEq, Repr

/-- Modelled external library call: `"".join(traceback.format_exception(
type(v), v, v.__traceback__))` applied to the exception object `v`
(core.py lines 96-102).  The exact text is opaque to the logger; we use a
concrete injective encoding. -/
def formatTrace : PyVal → String
  | PyVal.vNone => "NoneType: None\n"
  | PyVal.vBool b => "Traceback (most recent call last): bool " ++ toString b ++ "\n"
  | PyVal.vInt n => "Traceback (most recent call last): int " ++ toString n ++ "\n"
  | PyVal.vStr s => "Traceback (most recent call last): str " ++ s ++ "\n"
  | PyVal.vExc e => "Traceback (most recent call last): exception " ++ toString e ++ "\n"

/-- A structured log record as built by `Ocelogger._log` (core.py 83-106):
a dict with fixed keys `ts`, `level`, `message`, `logger`, `pid` and
optional keys `trace_id`, `exception`, `extra`. -/
structure Record where
  ts : String
  level : String
  message : String
  logger : String
  pid : Int
  traceId : Option String
  exception : Option String
  extra : Option (List (String × PyVal))
deriving DecidableEq, Repr

/-- Step of `Ocelogger._log` at core.py lines 91-93: `if trace_id:
record["trace_id"] = trace_id` — Python truthiness, so the field is set
only for a non-`None`, non-empty string. -/
def applyTraceId (traceId : Option String) (r : Record) : Record :=
  match traceId with
  | some t => if t = "" then r else { r with traceId := some t }
  | none => r

/-- Step of `Ocelogger._log` at core.py lines 95-103: `if "exc" in kwargs
and kwargs["exc"] is not None:` record the formatted exception text and
`kwargs.pop("exc")`.  Returns the updated record together with the
keyword arguments left over for the `extra` field; when the `exc` value
is `None` nothing is recorded and nothing is popped. -/
def applyExc (kwargs : List (String × PyVal)) (r : Record) :
    Record × List (String × PyVal) :=
  match kwargs.lookup "exc" with
  | some v =>
      if v = PyVal.vNone then (r, kwargs)
      else ({ r with exception := some (formatTrace v) },
            kwargs.filter (fun p => p.1 ≠ "exc"))
  | none => (r, kwargs)

/-- Embedding of `Ocelogger._log`'s record-construction steps
(core.py lines 83-106), parameterised by the ambient inputs: the timestamp
string `self._now()`, the logger name, `self._pid`, the ambient trace id
returned by `get_trace_id()` and the keyword arguments.  The final step is
core.py lines 105-106: `if kwargs: record["extra"] = kwargs` — the
remaining keyword dictionary is attached only when non-empty. -/
def buildRecord (now : String) (name : String) (pid : Int) (traceId : Option String)
    (level message : String) (kwargs : List (String × PyVal)) : Record :=
  let base : Record :=
    { ts := now, level := level, message := message, logger := name, pid := pid,
      traceId := none, exception := none, extra := none }
  let step := applyExc kwargs (applyTraceId traceId base)
  if step.2.isEmpty then step.1 else { step.1 with extra := some step.2 }

/-- The background flusher thread handle (`self._flusher`): `alive` models
`Thread.is_alive()`, `gen` is a generation counter distinguishing distinct
`threading.Thread` objects. -/
structure Flusher where
  alive : Bool
  gen : Nat
deriving DecidableEq, Repr

/-- The mutable state of an `Ocelogger` instance (core.py lines 40-53).
`flushInterval` and `maxBuffer` are `Option`s so that Python `None` is
representable alongside numbers; `stopGen`/`stopSet` model the identity
and set-flag of the current `threading.Event` in `self._stop_event`;
`flusherGen` is the generation counter for thread creation. -/
structure LoggerState where
  name : String
  buffer : List Record
  maxBuffer : Option Int
  flushInterval : Option Rat
  closed : Bool
  pid : Int
  flusher : Option Flusher
  flusherPid : Option Int
  flusherGen : Nat
  stopGen : Nat
  stopSet : Bool
deriving DecidableEq

/-- Embedding of `Ocelogger._start_flusher` (core.py 169-176): allocate a
brand-new `threading.Event` (fresh `stopGen`, unset), start a fresh thread
(fresh generation, alive) and record the current pid as the flusher's
owning pid. -/
def startFlusher (currentPid : Int) (s : LoggerState) : LoggerState :=
  { s with
    stopGen := s.stopGen + 1
    stopSet := false
    flusherGen := s.flusherGen + 1
    flusher := some { alive := true, gen := s.flusherGen + 1 }
    flusherPid := some currentPid }

/-- The restart condition of `Ocelogger._ensure_flusher` (core.py 154-158):
`self._flusher is None or not self._flusher.is_alive() or
self._flusher_pid != current_pid`. -/
def flusherStale (currentPid : Int) (s : LoggerState) : Bool :=
  match s.flusher with
  | none => true
  | some f => !f.alive || s.flusherPid ≠ some currentPid

/-- The restart step of `Ocelogger._ensure_flusher` (core.py 154-159):
start a fresh flusher exactly when the handle is stale. -/
def ensureRestart (currentPid : Int) (s : LoggerState) : LoggerState :=
  if flusherStale currentPid s then startFlusher currentPid s else s

/-- The pid-refresh step of `Ocelogger._ensure_flusher` (core.py 151-153):
`if self._pid != current_pid: self._pid = current_pid`. -/
def refreshPid (currentPid : Int) (s : LoggerState) : LoggerState :=
  if s.pid ≠ currentPid then { s with pid := currentPid } else s

/-- Embedding of `Ocelogger._ensure_flusher` (core.py 145-159),
parameterised by `os.getpid()`.  Returns early when the logger is closed
or the flush interval is falsy/non-positive (`not self._flush_interval or
self._flush_interval <= 0`); otherwise refreshes `self._pid` and restarts
the flusher when the handle is absent, dead, or owned by another pid. -/
def ensureFlusher (currentPid : Int) (s : LoggerState) : LoggerState :=
  if s.closed then s
  else
    match s.flushInterval with
    | none => s
    | some q =>
      if q ≤ 0 then s
      else ensureRestart currentPid (refreshPid currentPid s)

/-- Embedding of `Ocelogger.flush` (core.py 127-135).  The returned
triple is `(new state, batch handed to the writer, writer outcome)`:
`none` in the second component means the writer was never invoked,
`some batch` means `self._writer.write(batch)` was invoked exactly once
with that batch.  The writer is modelled as a function returning
`Except Nat Unit` (`Except.error e` = the write raised exception `e`,
which `flush` propagates to its caller). -/
def flushStep (write : List Record → Except Nat Unit) (s : LoggerState) :
    LoggerState × Option (List Record) × Except Nat Unit :=
  if s.buffer.isEmpty then (s, none, Except.ok ())
  else
    let batch := s.buffer
    let s2 := { s with buffer := ([] : List Record) }
    (s2, some batch, write batch)

/-- The size-trigger guard computed inside the lock by `Ocelogger._log`
(core.py line 110): `should_flush = self._max_buffer and
len(self._buffer) >= self._max_buffer`, with Python truthiness for
`self._max_buffer` (`None` and `0` are falsy). -/
def shouldFlushAfter (maxBuffer : Option Int) (lenAfter : Nat) : Bool :=
  match maxBuffer with
  | none => false
  | some m => m ≠ 0 && m ≤ (lenAfter : Int)

/-- The observable outcome of one `Ocelogger._log` call. -/
structure LogResult where
  state : LoggerState
  autoFlush : Bool
  flushedBatch : Option (List Record)
  writeResult : Except Nat Unit

/-- Embedding of `Ocelogger._log` (core.py 80-113), parameterised by
`os.getpid()`, the timestamp and the ambient trace id: ensure the flusher,
build the record, append it under the lock, compute the size trigger and
flush when it fires. -/
def logStep (write : List Record → Except Nat Unit) (currentPid : Int)
    (now : String) (traceId : Option String) (level message : String)
    (kwargs : List (String × PyVal)) (s : LoggerState) : LogResult :=
  let s0 := ensureFlusher currentPid s
  let record := buildRecord now s0.name s0.pid traceId level message kwargs
  let s1 := { s0 with buffer := s0.buffer ++ [record] }
  if shouldFlushAfter s1.maxBuffer s1.buffer.length then
    let fr := flushStep write s1
    { state := fr.1, autoFlush := true, flushedBatch := fr.2.1, writeResult := fr.2.2 }
  else
    { state := s1, autoFlush := false, flushedBatch := none, writeResult := Except.ok () }

/-- Embedding of `Ocelogger.close` (core.py 137-143): set the closed flag,
and when a flusher handle exists set its stop event (the bounded
`join(timeout=1.0)` does not change logger state), then perform the final
`flush()`.  Result as in `flushStep`. -/
def closeStep (write : List Record → Except Nat Unit) (s : LoggerState) :
    LoggerState × Option (List Record) × Except Nat Unit :=
  let s1 := { s with closed := true }
  let s2 :=
    match s1.flusher with
    | some _ => { s1 with stopSet := true }
    | none => s1
  flushStep write s2

/-! ## Writer backends (`_init_writer`, `_DBWriter`) -/

/-- The type of the user-supplied batch-write function handed to
`_DBWriter`.  The extra `Nat` argument is the attempt index (how many
failed attempts preceded this call), modelling the fact that the external
backend may behave differently across attempts; the result `none` means
the call returned normally, `some e` that it raised exception `e`. -/
def BatchFn : Type :=
  Nat → List Record → Option Nat

/-- The type of the optional `db_on_error` callback: called with
`(records, exc)`; an `Except.error` result models the callback itself
raising (which `_handle_error` swallows). -/
def ErrorCallback : Type :=
  List Record → Nat → Except Nat Unit

/-- The observable effects of one `_DBWriter._handle_error` call
(core.py 227-239). -/
structure HandleResult where
  /-- The arguments the `db_on_error` callback was invoked with, when a
  callback was configured (`self._on_error(records, exc)`). -/
  callbackArgs : Option (List Record × Nat)
  /-- The callback's own outcome; an `Except.error` here was swallowed by
  the surrounding `try/except: pass`. -/
  callbackOutcome : Option (Except Nat Unit)
  /-- The exception re-raised to the caller (`raise exc` under mode
  `"raise"`), if any. -/
  raised : Option Nat
  /-- The text written to `sys.stderr` (under mode `"stderr"`), if any. -/
  stderr : Option String

/-- Modelled external: `traceback.format_exception` applied to the raw
backend exception tagged `e` (core.py line 237). -/
def formatExcDetail (e : Nat) : String :=
  "Traceback (most recent call last): exception " ++ toString e ++ "\n"

/-- Embedding of `_DBWriter._handle_error` (core.py 227-239): invoke the
optional callback, swallowing its outcome; then `raise exc` under mode
`"raise"`; else write the formatted trace to stderr under mode
`"stderr"`; else (mode `"silent"`) do nothing further. -/
def handleError (onError : Option ErrorCallback) (errorMode : String)
    (records : List Record) (exc : Nat) : HandleResult :=
  let cbArgs := onError.map fun _ => (records, exc)
  let cbOut := onError.map fun f => f records exc
  if errorMode = "raise" then
    { callbackArgs := cbArgs, callbackOutcome := cbOut,
      raised := some exc, stderr := none }
  else if errorMode = "stderr" then
    { callbackArgs := cbArgs, callbackOutcome := cbOut,
      raised := none, stderr := some (formatExcDetail exc) }
  else
    { callbackArgs := cbArgs, callbackOutcome := cbOut,
      raised := none, stderr := none }

/-- The trace of one `_DBWriter.write` call. -/
structure DBWriteResult where
  /-- The batch passed to the user batch function on each invocation, in
  invocation order (`self._writer(records)`). -/
  calls : List (List Record)
  /-- The number of `time.sleep(self._retry_delay)` calls performed. -/
  sleeps : Nat
  /-- The `_handle_error` invocations performed (at most one). -/
  handled : List HandleResult
  /-- The exception propagated out of `write` to its caller, if any. -/
  raised : Option Nat

/-- The loop body of `_DBWriter.write` (core.py 210-225), with `attempts`
the number of failed attempts so far (the Python local `attempts` before
the current call).  Each iteration calls the batch function once; on
success it returns; on failure it increments `attempts`, hands off to
`_handle_error` once `attempts > retries`, and otherwise sleeps (when
`retry_delay` is truthy) and retries with the identical batch. -/
def dbWriteGo (writerFn : BatchFn) (retries : Int) (retryDelay : Rat)
    (onError : Option ErrorCallback) (errorMode : String)
    (records : List Record) (attempts : Nat) : DBWriteResult :=
  match writerFn attempts records with
  | none => { calls := [records], sleeps := 0, handled := [], raised := none }
  | some exc =>
    if h : retries < ((attempts : Int) + 1) then
      let hr := handleError onError errorMode records exc
      { calls := [records], sleeps := 0, handled := [hr], raised := hr.raised }
    else
      let rest := dbWriteGo writerFn retries retryDelay onError errorMode records (attempts + 1)
      { calls := records :: rest.calls
        sleeps := (if retryDelay ≠ 0 then 1 else 0) + rest.sleeps
        handled := rest.handled
        raised := rest.raised }
termination_by retries.toNat + 1 - attempts
decreasing_by
  simp only [not_lt] at h
  omega

/-- Embedding of `_DBWriter.write` (core.py 210-225): run the retry loop
starting from zero attempts. -/
def dbWrite (writerFn : BatchFn) (retries : Int) (retryDelay : Rat)
    (onError : Option ErrorCallback) (errorMode : String)
    (records : List Record) : DBWriteResult :=
  dbWriteGo writerFn retries retryDelay onError errorMode records 0

/-- A constructed writer backend, as returned by `Ocelogger._init_writer`
(core.py 62-74): either a `_FileWriter` over the configured logfile path
or a `_DBWriter` over the supplied batch function and retry/error
configuration. -/
inductive Writer where
  | file (logfile : String)
  | db (writerFn : BatchFn) (retries : Int) (retryDelay : Rat)
       (errorMode : String) (onError : Option ErrorCallback)

/-- Embedding of `Ocelogger._init_writer` (core.py 62-74), the
construction-time validation path (invoked from `__init__`, line 45, so
an `Except.error` here is a `ValueError` raised at construction).
Mirrors the source's order: `mode == "file"` returns a `_FileWriter`
immediately (no policy validation); `mode == "db"` first requires a batch
function, then a valid `db_error_mode`; any other mode is rejected. -/
def initWriter (logfile : String) (mode : String) (dbWriter : Option BatchFn)
    (dbRetries : Int) (dbRetryDelay : Rat) (dbErrorMode : String)
    (dbOnError : Option ErrorCallback) : Except String Writer :=
  if mode = "file" then Except.ok (Writer.file logfile)
  else if mode = "db" then
    match dbWriter with
    | none => Except.error "db_writer is required when mode='db'"
    | some w =>
      if dbErrorMode ≠ "silent" ∧ dbErrorMode ≠ "raise" ∧ dbErrorMode ≠ "stderr" then
        Except.error ("unsupported db_error_mode: " ++ dbErrorMode)
      else
        Except.ok (Writer.db w dbRetries dbRetryDelay dbErrorMode dbOnError)
  else Except.error ("unsupported mode: " ++ mode)

/-- Whether a construction attempt raised (`ValueError`). -/
def raisesAtConstruction (r : Except String Writer) : Bool :=
  match r with
  | Except.error _ => true
  | Except.ok _ => false

/-! ## Ambient context (`context.py`) -/

/-- The ambient context of `context.py`: the `trace_id` and `scope`
context variables (defaults `None` and `"cli"`). -/
structure Context where
  trace : Option String
  scope : String
deriving DecidableEq, Repr

/-- Embedding of `set_trace_id` (context.py 10-15), parameterised by the
fresh `uuid.uuid4().hex` value used when the argument is `None`.  Returns
the updated context together with the stored trace id. -/
def set_trace_id (c : Context) (traceId : Option String) (freshUuid : String) :
    Context × String :=
  match traceId with
  | none => ({ c with trace := some freshUuid }, freshUuid)
  | some t => ({ c with trace := some t }, t)

/-- Embedding of `get_trace_id` (context.py 18-20). -/
def get_trace_id (c : Context) : Option String :=
  c.trace

/-! ## Auxiliary predicates and concrete instances used in statements -/

/-- Whether a non-`None` error value was supplied via the `exc` keyword:
the guard `"exc" in kwargs and kwargs["exc"] is not None` of core.py 95. -/
def excSupplied (kwargs : List (String × PyVal)) : Bool :=
  match kwargs.lookup "exc" with
  | some v => v ≠ PyVal.vNone
  | none => false

/-- The keyword arguments that remain for the `extra` field after the
(possible) extraction of the `exc` key (core.py 95-106): the `exc` key is
removed only when its value is not `None`. -/
def remainingExtras (kwargs : List (String × PyVal)) : List (String × PyVal) :=
  if excSupplied kwargs then kwargs.filter (fun p => p.1 ≠ "exc") else kwargs

/-- A sample record for concrete witness instances. -/
def sampleRecord : Record :=
  { ts := "2026-01-01T00:00:00.000Z", level := "INFO", message := "hello",
    logger := "ocelog", pid := 7, traceId := none, exception := none, extra := none }

/-- A sample logger state (no flusher yet, defaults as in `__init__`). -/
def sampleState : LoggerState :=
  { name := "ocelog", buffer := [], maxBuffer := some 1000,
    flushInterval := some 1, closed := false, pid := 7, flusher := none,
    flusherPid := none, flusherGen := 0, stopGen := 0, stopSet := false }

/-- A sample logger state configured with a negative max-buffer threshold
(accepted by the constructor, which performs no validation of
`max_buffer`) and background flushing disabled. -/
def negThresholdState : LoggerState :=
  { name := "ocelog", buffer := [], maxBuffer := some (-1),
    flushInterval := none, closed := false, pid := 7, flusher := none,
    flusherPid := none, flusherGen := 0, stopGen := 0, stopSet := false }

/-- A writer whose `write` always succeeds. -/
def okWrite : List Record → Except Nat Unit :=
  fun _ => Except.ok ()

/-- A writer whose `write` always raises exception `42`. -/
def failWrite : List Record → Except Nat Unit :=
  fun _ => Except.error 42

/-- A batch function that raises exception `7` on every attempt. -/
def alwaysFail : BatchFn :=
  fun _ _ => some 7

/-- An error callback that itself raises exception `99`. -/
def cbRaises : ErrorCallback :=
  fun _ _ => Except.error 99

end Ocelog

namespace Ocelog

/-! ## Helper lemmas -/

@[simp] lemma startFlusher_buffer (p : Int) (s : LoggerState) :
    (startFlusher p s).buffer = s.buffer := rfl

@[simp] lemma startFlusher_name (p : Int) (s : LoggerState) :
    (startFlusher p s).name = s.name := rfl

@[simp] lemma startFlusher_maxBuffer (p : Int) (s : LoggerState) :
    (startFlusher p s).maxBuffer = s.maxBuffer := rfl

@[simp] lemma startFlusher_flushInterval (p : Int) (s : LoggerState) :
    (startFlusher p s).flushInterval = s.flushInterval := rfl

@[simp] lemma startFlusher_closed (p : Int) (s : LoggerState) :
    (startFlusher p s).closed = s.closed := rfl

@[simp] lemma ensureRestart_buffer (p : Int) (s : LoggerState) :
    (ensureRestart p s).buffer = s.buffer := by
  unfold ensureRestart; split <;> simp

@[simp] lemma ensureRestart_name (p : Int) (s : LoggerState) :
    (ensureRestart p s).name = s.name := by
  unfold ensureRestart; split <;> simp

@[simp] lemma ensureRestart_maxBuffer (p : Int) (s : LoggerState) :
    (ensureRestart p s).maxBuffer = s.maxBuffer := by
  unfold ensureRestart; split <;> simp

@[simp] lemma ensureRestart_closed (p : Int) (s : LoggerState) :
    (ensureRestart p s).closed = s.closed := by
  unfold ensureRestart; split <;> simp

@[simp] lemma refreshPid_buffer (p : Int) (s : LoggerState) :
    (refreshPid p s).buffer = s.buffer := by
  unfold refreshPid; split <;> simp

@[simp] lemma refreshPid_name (p : Int) (s : LoggerState) :
    (refreshPid p s).name = s.name := by
  unfold refreshPid; split <;> simp

@[simp] lemma refreshPid_maxBuffer (p : Int) (s : LoggerState) :
    (refreshPid p s).maxBuffer = s.maxBuffer := by
  unfold refreshPid; split <;> simp

@[simp] lemma refreshPid_closed (p : Int) (s : LoggerState) :
    (refreshPid p s).closed = s.closed := by
  unfold refreshPid; split <;> simp

@[simp] lemma refreshPid_flusher (p : Int) (s : LoggerState) :
    (refreshPid p s).flusher = s.flusher := by
  unfold refreshPid; split <;> simp

@[simp] lemma refreshPid_flusherPid (p : Int) (s : LoggerState) :
    (refreshPid p s).flusherPid = s.flusherPid := by
  unfold refreshPid; split <;> simp

@[simp] lemma refreshPid_flusherGen (p : Int) (s : LoggerState) :
    (refreshPid p s).flusherGen = s.flusherGen := by
  unfold refreshPid; split <;> simp

@[simp] lemma refreshPid_stopGen (p : Int) (s : LoggerState) :
    (refreshPid p s).stopGen = s.stopGen := by
  unfold refreshPid; split <;> simp

@[simp] lemma refreshPid_stopSet (p : Int) (s : LoggerState) :
    (refreshPid p s).stopSet = s.stopSet := by
  unfold refreshPid; split <;> simp

lemma refreshPid_pid_eq (p : Int) (s : LoggerState) :
    (refreshPid p s).pid = p := by
  unfold refreshPid
  split <;> simp_all

/-- The staleness check only inspects the flusher handle and its owning
pid, so the pid-refresh step does not affect it. -/
lemma flusherStale_refreshPid (p : Int) (s : LoggerState) :
    flusherStale p (refreshPid p s) = flusherStale p s := by
  unfold flusherStale
  rw [refreshPid_flusher, refreshPid_flusherPid]

/-- `_ensure_flusher` never touches the buffer. -/
lemma ensureFlusher_buffer (currentPid : Int) (s : LoggerState) :
    (ensureFlusher currentPid s).buffer = s.buffer := by
  unfold ensureFlusher
  split
  · rfl
  · split
    · rfl
    · split <;> simp

/-- `_ensure_flusher` never touches the logger name. -/
lemma ensureFlusher_name (currentPid : Int) (s : LoggerState) :
    (ensureFlusher currentPid s).name = s.name := by
  unfold ensureFlusher
  split
  · rfl
  · split
    · rfl
    · split <;> simp

/-- `_ensure_flusher` never touches the max-buffer threshold. -/
lemma ensureFlusher_maxBuffer (currentPid : Int) (s : LoggerState) :
    (ensureFlusher currentPid s).maxBuffer = s.maxBuffer := by
  unfold ensureFlusher
  split
  · rfl
  · split
    · rfl
    · split <;> simp

/-- `_ensure_flusher` on a closed logger is the identity. -/
lemma ensureFlusher_closed (currentPid : Int) (s : LoggerState)
    (h : s.closed = true) : ensureFlusher currentPid s = s := by
  unfold ensureFlusher
  rw [if_pos h]

/-- The record built by `_log` has the field layout given by the three
sequential construction steps: trace id by truthiness, exception by
non-`None` `exc` extraction, extra by non-emptiness of what remains. -/
lemma buildRecord_eq (now name : String) (pid : Int) (traceId : Option String)
    (level message : String) (kwargs : List (String × PyVal)) :
    buildRecord now name pid traceId level message kwargs =
      { ts := now, level := level, message := message, logger := name, pid := pid
        traceId :=
          (match traceId with
           | some t => if t = "" then none else some t
           | none => none)
        exception :=
          if excSupplied kwargs then
            some (formatTrace ((kwargs.lookup "exc").getD PyVal.vNone))
          else none
        extra :=
          if (remainingExtras kwargs).isEmpty then none
          else some (remainingExtras kwargs) } := by
  have happ : applyExc kwargs (applyTraceId traceId
      { ts := now, level := level, message := message, logger := name, pid := pid,
        traceId := none, exception := none, extra := none }) =
      (if excSupplied kwargs then
        { applyTraceId traceId
            { ts := now, level := level, message := message, logger := name, pid := pid,
              traceId := none, exception := none, extra := none } with
          exception := some (formatTrace ((kwargs.lookup "exc").getD PyVal.vNone)) }
       else applyTraceId traceId
            { ts := now, level := level, message := message, logger := name, pid := pid,
              traceId := none, exception := none, extra := none },
       remainingExtras kwargs) := by
    unfold applyExc remainingExtras
    cases h : kwargs.lookup "exc" with
    | none => simp [excSupplied, h]
    | some v => by_cases hv : v = PyVal.vNone <;> simp [excSupplied, h, hv]
  simp only [buildRecord, happ]
  cases traceId with
  | none =>
    by_cases hs : excSupplied kwargs <;>
      by_cases he : (remainingExtras kwargs).isEmpty <;>
        simp [applyTraceId, hs, he]
  | some t =>
    by_cases ht : t = "" <;>
      by_cases hs : excSupplied kwargs <;>
        by_cases he : (remainingExtras kwargs).isEmpty <;>
          simp [applyTraceId, ht, hs, he]

/-- Characterization of `_handle_error`'s effects as direct formulas over
the configured policy. -/
lemma handleError_eq (onError : Option ErrorCallback) (errorMode : String)
    (records : List Record) (exc : Nat) :
    handleError onError errorMode records exc =
      { callbackArgs := onError.map fun _ => (records, exc)
        callbackOutcome := onError.map fun f => f records exc
        raised := if errorMode = "raise" then some exc else none
        stderr := if errorMode = "stderr" then some (formatExcDetail exc) else none } := by
  unfold handleError
  by_cases h1 : errorMode = "raise"
  · subst h1; simp
  · by_cases h2 : errorMode = "stderr" <;> simp [h1, h2]

/-- Size-trigger characterization: the guard of core.py line 110 fires
exactly for a non-zero (truthy) threshold that the buffer length reaches. -/
lemma shouldFlushAfter_iff (mb : Option Int) (n : Nat) :
    shouldFlushAfter mb n = true ↔ ∃ m : Int, mb = some m ∧ m ≠ 0 ∧ m ≤ (n : Int) := by
  unfold shouldFlushAfter
  cases mb with
  | none => simp
  | some m => simp

/-- One-step unfolding of the retry loop: a successful attempt. -/
lemma dbWriteGo_success (writerFn : BatchFn) (retries : Int) (retryDelay : Rat)
    (onError : Option ErrorCallback) (errorMode : String) (records : List Record)
    (attempts : Nat) (h : writerFn attempts records = none) :
    dbWriteGo writerFn retries retryDelay onError errorMode records attempts
      = { calls := [records], sleeps := 0, handled := [], raised := none } := by
  rw [dbWriteGo, h]

/-- One-step unfolding of the retry loop: a failing attempt that exhausts
the retry budget and hands off to `_handle_error`. -/
lemma dbWriteGo_terminal (writerFn : BatchFn) (retries : Int) (retryDelay : Rat)
    (onError : Option ErrorCallback) (errorMode : String) (records : List Record)
    (attempts : Nat) (e : Nat) (h : writerFn attempts records = some e)
    (hc : retries < (attempts : Int) + 1) :
    dbWriteGo writerFn retries retryDelay onError errorMode records attempts
      = { calls := [records], sleeps := 0
          handled := [handleError onError errorMode records e]
          raised := (handleError onError errorMode records e).raised } := by
  rw [dbWriteGo, h]
  simp [hc]

/-- One-step unfolding of the retry loop: a failing attempt with retry
budget remaining. -/
lemma dbWriteGo_retry (writerFn : BatchFn) (retries : Int) (retryDelay : Rat)
    (onError : Option ErrorCallback) (errorMode : String) (records : List Record)
    (attempts : Nat) (e : Nat) (h : writerFn attempts records = some e)
    (hc : ¬retries < (attempts : Int) + 1) :
    dbWriteGo writerFn retries retryDelay onError errorMode records attempts
      = { calls := records ::
            (dbWriteGo writerFn retries retryDelay onError errorMode records (attempts + 1)).calls
          sleeps := (if retryDelay ≠ 0 then 1 else 0) +
            (dbWriteGo writerFn retries retryDelay onError errorMode records (attempts + 1)).sleeps
          handled :=
            (dbWriteGo writerFn retries retryDelay onError errorMode records (attempts + 1)).handled
          raised :=
            (dbWriteGo writerFn retries retryDelay onError errorMode records (attempts + 1)).raised
        } := by
  rw [dbWriteGo, h]
  simp [hc]

/-- Behaviour of the retry loop under persistent failure, from any point
`attempts ≤ retries.toNat` of the loop: the batch function is called once
per remaining attempt with the identical batch, and `_handle_error` runs
exactly once, on the error of the final attempt. -/
lemma dbWriteGo_persistent_failure (writerFn : BatchFn) (retries : Int) (retryDelay : Rat)
    (onError : Option ErrorCallback) (errorMode : String) (records : List Record)
    (hfail : ∀ i, (writerFn i records).isSome = true) (hr : 0 ≤ retries) :
    ∀ n attempts, retries.toNat - attempts = n → attempts ≤ retries.toNat →
      (dbWriteGo writerFn retries retryDelay onError errorMode records attempts).calls
        = List.replicate (retries.toNat + 1 - attempts) records
      ∧ ∃ e, writerFn retries.toNat records = some e
        ∧ (dbWriteGo writerFn retries retryDelay onError errorMode records attempts).handled
            = [handleError onError errorMode records e]
        ∧ (dbWriteGo writerFn retries retryDelay onError errorMode records attempts).raised
            = (handleError onError errorMode records e).raised := by
  intro n
  induction n with
  | zero =>
    intro attempts h0 h1
    have ha : attempts = retries.toNat := by omega
    obtain ⟨e, he⟩ := Option.isSome_iff_exists.mp (hfail attempts)
    have hc : retries < (attempts : Int) + 1 := by omega
    rw [dbWriteGo_terminal writerFn retries retryDelay onError errorMode records attempts e he hc]
    subst ha
    refine ⟨by simp, e, he, rfl, rfl⟩
  | succ n ih =>
    intro attempts h0 h1
    have hlt : attempts < retries.toNat := by omega
    obtain ⟨e, he⟩ := Option.isSome_iff_exists.mp (hfail attempts)
    have hc : ¬retries < (attempts : Int) + 1 := by omega
    rw [dbWriteGo_retry writerFn retries retryDelay onError errorMode records attempts e he hc]
    obtain ⟨hcalls, e2, he2, hhandled, hraised⟩ := ih (attempts + 1) (by omega) (by omega)
    refine ⟨?_, e2, he2, by simpa using hhandled, by simpa using hraised⟩
    have hrep : retries.toNat + 1 - attempts = (retries.toNat + 1 - (attempts + 1)) + 1 := by
      omega
    simp only [hcalls]
    rw [hrep, List.replicate_succ]

/-! ## Claim theorems -/

/-- C1: `flush()` on an empty buffer is a no-op (state unchanged, writer
never invoked); on a non-empty buffer the whole current buffer is swapped
out for an empty one and handed to the writer exactly once, in append
order (the second component of the result is the single writer
invocation's batch), leaving the logger's buffer empty either way. -/
theorem flush_swaps_whole_buffer_to_writer_once
    (write : List Record → Except Nat Unit) (s : LoggerState) :
    ((flushStep write s).2.1 = if s.buffer.isEmpty then none else some s.buffer)
    ∧ (flushStep write s).1.buffer = []
    ∧ (s.buffer.isEmpty = true → flushStep write s = (s, none, Except.ok ()))
    ∧ (s.buffer.isEmpty = false →
        flushStep write s = ({ s with buffer := [] }, some s.buffer, write s.buffer)) := by
  cases hb : s.buffer with
  | nil => simp [flushStep, hb]
  | cons r rest => simp [flushStep, hb]

/-- Witness for C1: flushing one buffered record hands exactly that batch
to the writer and empties the buffer. -/
theorem flush_swaps_whole_buffer_to_writer_once_witness :
    flushStep okWrite { sampleState with buffer := [sampleRecord] } =
      ({ sampleState with buffer := [] }, some [sampleRecord], Except.ok ()) :=
  (flush_swaps_whole_buffer_to_writer_once okWrite
    { sampleState with buffer := [sampleRecord] }).2.2.2 rfl

/-- C10: when `flush()` hands a non-empty batch to the writer and the
writer raises, the buffer stays empty (the failed batch is not restored)
while the error propagates to the flush caller. -/
theorem flush_error_batch_not_restored
    (write : List Record → Except Nat Unit) (s : LoggerState) (e : Nat)
    (hne : s.buffer.isEmpty = false) (herr : write s.buffer = Except.error e) :
    (flushStep write s).1 = { s with buffer := [] }
    ∧ (flushStep write s).2.2 = Except.error e := by
  unfold flushStep
  simp [hne, herr]

/-- Witness for C10: a failing writer leaves the buffer empty and the
error propagated. -/
theorem flush_error_batch_not_restored_witness :
    (flushStep failWrite { sampleState with buffer := [sampleRecord] }).1 =
      { sampleState with buffer := [] }
    ∧ (flushStep failWrite { sampleState with buffer := [sampleRecord] }).2.2 =
      Except.error 42 :=
  flush_error_batch_not_restored failWrite
    { sampleState with buffer := [sampleRecord] } 42 rfl rfl

/-- C9: a `log()` call made while the ambient trace id is set to the empty
string produces a record with no `trace_id` field at all, because
core.py line 92 tests truthiness (`if trace_id:`), not presence — even
though an ambient trace id value is set at call time. -/
theorem empty_trace_id_produces_no_field (c : Context) (freshUuid now name : String)
    (pid : Int) (level message : String) (kwargs : List (String × PyVal)) :
    get_trace_id (set_trace_id c (some "") freshUuid).1 = some ""
    ∧ (buildRecord now name pid (get_trace_id (set_trace_id c (some "") freshUuid).1)
        level message kwargs).traceId = none := by
  refine ⟨rfl, ?_⟩
  show (buildRecord now name pid (some "") level message kwargs).traceId = none
  rw [buildRecord_eq]
  simp

/-- C8: `close()` marks the logger closed (so `_ensure_flusher`, hence any
subsequent `log()` call, never (re)starts a flusher), sets the stop event
whenever a flusher handle exists, and performs one final flush that hands
every buffered record to the writer and leaves the buffer empty. -/
theorem close_marks_signals_and_drains
    (write : List Record → Except Nat Unit) (s : LoggerState) :
    (closeStep write s).1.closed = true
    ∧ (∀ p : Int, ensureFlusher p (closeStep write s).1 = (closeStep write s).1)
    ∧ (closeStep write s).1.stopSet = (s.stopSet || s.flusher.isSome)
    ∧ ((closeStep write s).2.1 = if s.buffer.isEmpty then none else some s.buffer)
    ∧ (closeStep write s).1.buffer = [] := by
  have h1 : (closeStep write s).1.closed = true := by
    unfold closeStep flushStep
    cases hf : s.flusher <;> cases hb : s.buffer <;> simp
  refine ⟨h1, fun p => ensureFlusher_closed p _ h1, ?_, ?_, ?_⟩
  · unfold closeStep flushStep
    cases hf : s.flusher <;> cases hb : s.buffer <;> simp [hb]
  · unfold closeStep flushStep
    cases hf : s.flusher <;> cases hb : s.buffer <;> simp [hb]
  · unfold closeStep flushStep
    cases hf : s.flusher <;> cases hb : s.buffer <;> simp [hb]

/-- C7: on a non-closed logger with positive flush interval,
`_ensure_flusher` starts a fresh flusher (new thread generation, alive,
brand-new unset stop event) owned by the current pid exactly when the
handle is absent, dead, or owned by a different pid; otherwise the
existing flusher, its owning pid and its stop event are left unchanged. -/
theorem log_restarts_stale_flusher (s : LoggerState) (currentPid : Int) (q : Rat)
    (hclosed : s.closed = false) (hint : s.flushInterval = some q) (hq : 0 < q) :
    (flusherStale currentPid s = true →
      (ensureFlusher currentPid s).flusher = some { alive := true, gen := s.flusherGen + 1 }
      ∧ (ensureFlusher currentPid s).flusherPid = some currentPid
      ∧ (ensureFlusher currentPid s).stopGen = s.stopGen + 1
      ∧ (ensureFlusher currentPid s).stopSet = false
      ∧ (ensureFlusher currentPid s).pid = currentPid)
    ∧ (flusherStale currentPid s = false →
      (ensureFlusher currentPid s).flusher = s.flusher
      ∧ (ensureFlusher currentPid s).flusherPid = s.flusherPid
      ∧ (ensureFlusher currentPid s).stopGen = s.stopGen
      ∧ (ensureFlusher currentPid s).stopSet = s.stopSet) := by
  have hef : ensureFlusher currentPid s = ensureRestart currentPid (refreshPid currentPid s) := by
    unfold ensureFlusher
    rw [if_neg (by simp [hclosed]), hint]
    simp [not_le.mpr hq]
  constructor
  · intro hstale
    rw [hef]
    unfold ensureRestart
    rw [flusherStale_refreshPid, hstale]
    simp [startFlusher, refreshPid_pid_eq]
  · intro hfresh
    rw [hef]
    unfold ensureRestart
    rw [flusherStale_refreshPid, hfresh]
    simp

/-- Witness for C7: on a state with no flusher handle, `_ensure_flusher`
starts a fresh flusher bound to the current pid with a new stop event. -/
theorem log_restarts_stale_flusher_witness :
    (ensureFlusher 99 sampleState).flusher
        = some { alive := true, gen := sampleState.flusherGen + 1 }
    ∧ (ensureFlusher 99 sampleState).flusherPid = some (99 : Int)
    ∧ (ensureFlusher 99 sampleState).stopGen = sampleState.stopGen + 1
    ∧ (ensureFlusher 99 sampleState).stopSet = false
    ∧ (ensureFlusher 99 sampleState).pid = 99 :=
  (log_restarts_stale_flusher sampleState 99 1 rfl rfl (by norm_num)).1 rfl

/-- C5 counterexample: the guard of core.py line 110 uses Python
truthiness (`self._max_buffer and ...`), so a negative threshold — which
is truthy and below every buffer length — triggers an automatic flush on
the very first `log()` call, although the threshold is not positive.
This refutes the claim's "if and only if the threshold is positive". -/
theorem negative_threshold_triggers_flush :
    (logStep okWrite 7 "2026-01-01T00:00:00.000Z" none "INFO" "m" [] negThresholdState).autoFlush
      = true
    ∧ negThresholdState.maxBuffer = some (-1)
    ∧ ¬(0 : Int) < -1 := by
  refine ⟨rfl, rfl, by decide⟩

/-- C5 (amended): a `log()` call triggers an automatic flush if and only
if the configured max-buffer threshold is truthy (non-`None` and
non-zero) and the buffer length after the append is at least the
threshold; the flush hands the writer the whole appended buffer in append
order. -/
theorem auto_flush_iff_nonzero_threshold_reached
    (write : List Record → Except Nat Unit) (currentPid : Int) (now : String)
    (traceId : Option String) (level message : String)
    (kwargs : List (String × PyVal)) (s : LoggerState) :
    ((logStep write currentPid now traceId level message kwargs s).autoFlush = true
      ↔ ∃ m : Int, s.maxBuffer = some m ∧ m ≠ 0 ∧ m ≤ (s.buffer.length : Int) + 1)
    ∧ ((logStep write currentPid now traceId level message kwargs s).flushedBatch
        = if (logStep write currentPid now traceId level message kwargs s).autoFlush then
            some (s.buffer ++
              [buildRecord now s.name (ensureFlusher currentPid s).pid traceId level message kwargs])
          else none) := by
  have hbuf := ensureFlusher_buffer currentPid s
  have hmax := ensureFlusher_maxBuffer currentPid s
  have hname := ensureFlusher_name currentPid s
  simp only [logStep]
  split
  case isTrue h =>
    rw [hmax, hbuf, hname] at h
    refine ⟨⟨fun _ => ?_, fun _ => rfl⟩, ?_⟩
    · rw [shouldFlushAfter_iff] at h
      simpa using h
    · simp [flushStep, hbuf, hname]
  case isFalse h =>
    rw [hmax, hbuf, hname] at h
    refine ⟨⟨fun hcontra => absurd hcontra (by simp), fun hex => ?_⟩, by simp⟩
    exact absurd (by rw [shouldFlushAfter_iff]; simpa using hex) h

/-- C6 counterexample: a `log()` call passing `exc=None` satisfies
`"exc" in kwargs` but fails `kwargs["exc"] is not None`, so the key is
*not* popped (core.py 95-103) and the record's `extra` retains the
`"exc"` key, contradicting the claim that `extra` never contains the
error key; no `exception` field is set. -/
theorem exc_none_remains_in_extra :
    (buildRecord "2026-01-01T00:00:00.000Z" "ocelog" 7 none "INFO" "m"
        [("exc", PyVal.vNone)]).extra = some [("exc", PyVal.vNone)]
    ∧ (buildRecord "2026-01-01T00:00:00.000Z" "ocelog" 7 none "INFO" "m"
        [("exc", PyVal.vNone)]).exception = none :=
  ⟨rfl, rfl⟩

/-- C6 (amended): the record's `exception` field is present exactly when a
non-`None` error value was supplied under the `exc` key; `extra` is
present exactly when the keyword arguments remaining after the (possible)
extraction are non-empty; and whenever a non-`None` error value was
supplied, the extraction happens first, so `extra` never contains the
`"exc"` key.  (When `exc` is passed as `None`, the key is not extracted
and remains in `extra`.) -/
theorem record_exception_extra_fields (now name : String) (pid : Int)
    (traceId : Option String) (level message : String)
    (kwargs : List (String × PyVal)) :
    ((buildRecord now name pid traceId level message kwargs).exception.isSome
        = excSupplied kwargs)
    ∧ ((buildRecord now name pid traceId level message kwargs).extra
        = if (remainingExtras kwargs).isEmpty then none
          else some (remainingExtras kwargs))
    ∧ (excSupplied kwargs = true → ∀ p ∈ remainingExtras kwargs, p.1 ≠ "exc") := by
  rw [buildRecord_eq]
  refine ⟨?_, rfl, ?_⟩
  · by_cases hs : excSupplied kwargs <;> simp [hs]
  · intro hs p hp
    rw [remainingExtras, if_pos hs] at hp
    have := List.of_mem_filter hp
    simpa using this

/-- Witness for C6: with `exc` bound to an exception object and one other
extra, the record's `extra` is exactly the other extra (no `"exc"` key)
and the witnessed element of the remaining extras is not the error key. -/
theorem record_exception_extra_fields_witness :
    (buildRecord "2026-01-01T00:00:00.000Z" "ocelog" 7 none "ERROR" "boom"
        [("exc", PyVal.vExc 3), ("user", PyVal.vStr "alice")]).extra
      = some [("user", PyVal.vStr "alice")]
    ∧ ("user" : String) ≠ "exc" := by
  constructor
  · rw [(record_exception_extra_fields "2026-01-01T00:00:00.000Z" "ocelog" 7 none "ERROR"
        "boom" [("exc", PyVal.vExc 3), ("user", PyVal.vStr "alice")]).2.1]
    rfl
  · exact (record_exception_extra_fields "2026-01-01T00:00:00.000Z" "ocelog" 7 none "ERROR"
        "boom" [("exc", PyVal.vExc 3), ("user", PyVal.vStr "alice")]).2.2 rfl
        ("user", PyVal.vStr "alice") (by decide)

/-- C4 counterexample: with `mode='file'` the constructor returns a
`_FileWriter` before ever validating `db_error_mode` (core.py 66-67), so
an unsupported terminal-error policy name is silently accepted — the
claim's "for every combination of constructor arguments" fails. -/
theorem file_mode_accepts_invalid_policy :
    raisesAtConstruction
        (initWriter "ocelog.jsonl" "file" none 3 (1 / 10) "bogus" none) = false
    ∧ ("bogus" : String) ≠ "silent"
    ∧ ("bogus" : String) ≠ "raise"
    ∧ ("bogus" : String) ≠ "stderr" :=
  ⟨rfl, by decide, by decide, by decide⟩

/-- C4 (amended): `Ocelogger` construction raises immediately (the check
runs in `_init_writer`, called from `__init__`, never at log time) if and
only if the mode is neither `'file'` nor `'db'`, or the mode is `'db'`
and no batch-write function is supplied, or the mode is `'db'` and the
terminal-error policy name is invalid.  In `'file'` mode the policy name
is not validated. -/
theorem construction_raises_iff (logfile mode : String) (dbWriter : Option BatchFn)
    (dbRetries : Int) (dbRetryDelay : Rat) (dbErrorMode : String)
    (dbOnError : Option ErrorCallback) :
    raisesAtConstruction
        (initWriter logfile mode dbWriter dbRetries dbRetryDelay dbErrorMode dbOnError) = true
      ↔ ((mode ≠ "file" ∧ mode ≠ "db")
         ∨ (mode = "db" ∧ dbWriter.isNone = true)
         ∨ (mode = "db" ∧ dbErrorMode ≠ "silent" ∧ dbErrorMode ≠ "raise"
             ∧ dbErrorMode ≠ "stderr")) := by
  unfold initWriter raisesAtConstruction
  by_cases h1 : mode = "file"
  · subst h1; simp
  · by_cases h2 : mode = "db"
    · subst h2
      cases dbWriter with
      | none => simp [h1]
      | some w =>
        by_cases h3 : dbErrorMode ≠ "silent" ∧ dbErrorMode ≠ "raise" ∧ dbErrorMode ≠ "stderr"
        · simp [h1, h3]
        · simp [h1, h3]
    · simp [h1, h2]

/-- C2: with a batch function that fails on every invocation, a
`_DBWriter` configured with `retries = N ≥ 0` invokes the batch function
exactly `N + 1` times, with the identical batch in identical order on
every attempt, and then applies the terminal-error handler exactly once. -/
theorem db_write_persistent_failure_attempts (writerFn : BatchFn) (retries : Int)
    (retryDelay : Rat) (onError : Option ErrorCallback) (errorMode : String)
    (records : List Record)
    (hfail : ∀ i, (writerFn i records).isSome = true) (hr : 0 ≤ retries) :
    (dbWrite writerFn retries retryDelay onError errorMode records).calls
      = List.replicate (retries.toNat + 1) records
    ∧ (dbWrite writerFn retries retryDelay onError errorMode records).handled.length = 1 := by
  obtain ⟨hcalls, e, he, hhandled, hraised⟩ :=
    dbWriteGo_persistent_failure writerFn retries retryDelay onError errorMode records
      hfail hr retries.toNat 0 (by omega) (by omega)
  unfold dbWrite
  refine ⟨by simpa using hcalls, by rw [hhandled]; rfl⟩

/-- Witness for C2: `retries = 3` and an always-failing batch function
give exactly four invocations of the batch function and one terminal
handling. -/
theorem db_write_persistent_failure_attempts_witness :
    (dbWrite alwaysFail 3 0 none "silent" [sampleRecord]).calls
      = List.replicate ((3 : Int).toNat + 1) [sampleRecord]
    ∧ (dbWrite alwaysFail 3 0 none "silent" [sampleRecord]).handled.length = 1 :=
  db_write_persistent_failure_attempts alwaysFail 3 0 none "silent" [sampleRecord]
    (fun _ => rfl) (by norm_num)

/-- C3: when a `_DBWriter` exhausts its retries it invokes the optional
error callback with `(batch, last_error)` — the callback's own outcome is
swallowed (the effects below do not depend on it) — and then: under
policy `'raise'` the last backend error propagates to the caller of
`write`; under `'stderr'` a formatted error trace is written to standard
error and nothing propagates; under `'silent'` neither happens. -/
theorem db_terminal_policy_effects (writerFn : BatchFn) (retries : Int)
    (retryDelay : Rat) (f : ErrorCallback) (errorMode : String) (records : List Record)
    (hfail : ∀ i, (writerFn i records).isSome = true) (hr : 0 ≤ retries) :
    ∃ e, writerFn retries.toNat records = some e
      ∧ (dbWrite writerFn retries retryDelay (some f) errorMode records).handled
          = [{ callbackArgs := some (records, e)
               callbackOutcome := some (f records e)
               raised := if errorMode = "raise" then some e else none
               stderr := if errorMode = "stderr" then some (formatExcDetail e) else none }]
      ∧ (dbWrite writerFn retries retryDelay (some f) errorMode records).raised
          = (if errorMode = "raise" then some e else none) := by
  obtain ⟨hcalls, e, he, hhandled, hraised⟩ :=
    dbWriteGo_persistent_failure writerFn retries retryDelay (some f) errorMode records
      hfail hr retries.toNat 0 (by omega) (by omega)
  refine ⟨e, he, ?_, ?_⟩
  · rw [dbWrite, hhandled, handleError_eq]
    simp
  · rw [dbWrite, hraised, handleError_eq]

/-- Witness for C3: a raising callback under policy `'raise'` — the
callback error is swallowed and the last backend error (7) is the one
propagated. -/
theorem db_terminal_policy_effects_witness :
    ∃ e, alwaysFail (2 : Int).toNat [sampleRecord] = some e
      ∧ (dbWrite alwaysFail 2 0 (some cbRaises) "raise" [sampleRecord]).handled
          = [{ callbackArgs := some ([sampleRecord], e)
               callbackOutcome := some (cbRaises [sampleRecord] e)
               raised := if "raise" = "raise" then some e else none
               stderr := if "raise" = "stderr" then some (formatExcDetail e) else none }]
      ∧ (dbWrite alwaysFail 2 0 (some cbRaises) "raise" [sampleRecord]).raised
          = (if "raise" = "raise" then some e else none) :=
  db_terminal_policy_effects alwaysFail 2 0 cbRaises "raise" [sampleRecord]
    (fun _ => rfl) (by norm_num)

end Ocelog

